import Mathlib

/-!
Shallow embedding of the aos-mcp-serverless pipeline
(`app.py`, `aos_setup/doc_ingest/aos_client.py`, `aos_setup/tools/embedding.py`,
`aos_setup/doc_ingest/doc_ingest.py`).

Modelling conventions:
* Python JSON values are the inductive `JVal`; Python dicts are association
  lists `PyDict` with first-occurrence lookup (`dictGet`) and
  replace-or-append update (`dictSet`), matching dict semantics for
  duplicate-free dicts.
* Python floats (similarity scores, embedding coordinates) are modelled as
  rationals `ℚ`; the claims under study are order-theoretic and structural,
  not about rounding.
* Network calls (the OpenSearch client primitives, the embedding HTTP POST,
  `client.bulk`) are oracles passed as explicit arguments: either a returned
  value or a raised exception (`Except PyExc _`), so each Python
  `try/except` becomes an explicit match on the oracle outcome.  Functions
  that must "issue no network call" additionally return a trace of the
  requests they issued.
* Every modelled operation is a total Lean function; "no exception
  propagates to the caller" is expressed by the result type always carrying
  a `status` of "success" or "error".
-/

set_option maxRecDepth 100000

namespace AosMcp

/-- JSON-like values, the payloads of the Python dicts moved around by the
pipeline. -/
inductive JVal where
  | str : String → JVal
  | num : ℚ → JVal
  | bool : Bool → JVal
  | null : JVal
  | arr : List JVal → JVal
  | obj : List (String × JVal) → JVal

/-- A Python dict with string keys, as an association list. -/
abbrev PyDict := List (String × JVal)

/-- Dict lookup: first binding of the key, `none` when absent
(Python `d.get(k)` / `k in d`). -/
def dictGet (k : String) : PyDict → Option JVal
  | [] => none
  | (k', v) :: rest => if k' = k then some v else dictGet k rest

/-- Dict update `d[k] = v`: replaces the first binding of `k` in place, or
appends when absent (Python dict assignment on a duplicate-free dict). -/
def dictSet (k : String) (v : JVal) : PyDict → PyDict
  | [] => [(k, v)]
  | (k', v') :: rest => if k' = k then (k, v) :: rest else (k', v') :: dictSet k v rest

/-- Python string content of a JSON value (used where the code passes
`doc[text_field]`, a string in every intended input, onward as text). -/
def JVal.asText : JVal → String
  | .str s => s
  | _ => ""

/-- Exceptions the opensearch-py client can raise, as caught by the
`except` clauses in `aos_client.py` (`str(e)` is the carried message). -/
inductive PyExc where
  | connectionError (s : String)
  | requestError (s : String)
  | notFoundError (s : String)
  | otherError (s : String)

/-- `str(e)` of a raised exception. -/
def PyExc.msg : PyExc → String
  | .connectionError s => s
  | .requestError s => s
  | .notFoundError s => s
  | .otherError s => s

/-- The uniform `{"status": ..., ...}` result dict returned by every
`OpenSearchClient` operation: a success payload or an error message. -/
inductive OpResult (α : Type) where
  | success (payload : α)
  | error (message : String)

/-- The `"status"` entry of a result dict. -/
def OpResult.status {α : Type} : OpResult α → String
  | .success _ => "success"
  | .error _ => "error"

/-- The `"message"` entry of a result dict (present exactly on errors). -/
def OpResult.message? {α : Type} : OpResult α → Option String
  | .success _ => none
  | .error m => some m

/-- One raw hit of an engine search response
(`hit["_id"]`, `hit["_score"]`, `hit["_source"]`).  `_score` is modelled as
always supplied by the engine. -/
structure SearchHit where
  id : Option String
  score : ℚ
  source : PyDict

/-- The engine search response, reduced to `response["hits"]["hits"]`. -/
structure EngineSearchResult where
  hits : List SearchHit

/-! ## OpenSearchClient (`aos_setup/doc_ingest/aos_client.py`) -/

/-- The `except` ladder of `search_documents`: `ConnectionError`,
`RequestError`, then catch-all `Exception`. -/
def searchExcHandler (e : PyExc) : OpResult EngineSearchResult :=
  match e with
  | .connectionError s => .error ("Connection error: " ++ s)
  | .requestError s => .error ("Invalid query: " ++ s)
  | e => .error ("Unexpected error: " ++ e.msg)

/-- `OpenSearchClient.search_documents`: check index existence, then search.
`existsO` is the outcome of `indices.exists`, `searchO` of `client.search`.
(The Python error branches also carry `"results": []`, which no caller
reads on the error path.) -/
def search_documents (indexName : String) (existsO : Except PyExc Bool)
    (searchO : Except PyExc EngineSearchResult) : OpResult EngineSearchResult :=
  match existsO with
  | .error e => searchExcHandler e
  | .ok false => .error ("Index " ++ indexName ++ " does not exist")
  | .ok true =>
    match searchO with
    | .error e => searchExcHandler e
    | .ok r => .success r

/-- The `except` ladder of `write_document` / `index_document`:
`ConnectionError`, `RequestError`, then catch-all `Exception`. -/
def writeExcHandler (e : PyExc) : OpResult JVal :=
  match e with
  | .connectionError s => .error ("Connection error: " ++ s)
  | .requestError s => .error ("Invalid document: " ++ s)
  | e => .error ("Unexpected error: " ++ e.msg)

/-- `OpenSearchClient.write_document`: create the index if absent, then
index the document under the given id.  `existsO`, `createO`, `indexO` are
the outcomes of the three client calls in the `try` block. -/
def write_document (documentId : String) (document : PyDict)
    (existsO : Except PyExc Bool) (createO : Except PyExc Unit)
    (indexO : Except PyExc JVal) : OpResult JVal :=
  match existsO with
  | .error e => writeExcHandler e
  | .ok idxExists =>
    match (if idxExists then Except.ok () else createO) with
    | .error e => writeExcHandler e
    | .ok () =>
      match indexO with
      | .error e => writeExcHandler e
      | .ok resp => .success resp

/-- `OpenSearchClient.index_document`: create the index if absent, then
index the document letting the store generate an id. -/
def index_document (document : PyDict)
    (existsO : Except PyExc Bool) (createO : Except PyExc Unit)
    (indexO : Except PyExc JVal) : OpResult JVal :=
  match existsO with
  | .error e => writeExcHandler e
  | .ok idxExists =>
    match (if idxExists then Except.ok () else createO) with
    | .error e => writeExcHandler e
    | .ok () =>
      match indexO with
      | .error e => writeExcHandler e
      | .ok resp => .success resp

/-- `OpenSearchClient.delete_document`: check index existence, then delete.
`except NotFoundError` maps to the not-found message; the catch-all maps
anything else (including connection failures) to an unexpected-error
message. -/
def delete_document (indexName : String) (documentId : String)
    (existsO : Except PyExc Bool) (deleteO : Except PyExc JVal) : OpResult JVal :=
  let handler : PyExc → OpResult JVal := fun e =>
    match e with
    | .notFoundError _ => .error ("Document with ID " ++ documentId ++ " not found")
    | e => .error ("Unexpected error: " ++ e.msg)
  match existsO with
  | .error e => handler e
  | .ok false => .error ("Index " ++ indexName ++ " does not exist")
  | .ok true =>
    match deleteO with
    | .error e => handler e
    | .ok resp => .success resp

/-! ## Embedding provider (`app.py:generate_embedding`,
`tools/embedding.py:EmbeddingTools.generate_embedding` — identical logic,
one reads the token from a module global, the other from `self.api_token`). -/

/-- One element of the response `data` list; `embedding` is `none` when the
`"embedding"` key is absent. -/
structure EmbedItem where
  embedding : Option (List ℚ)

/-- The parsed JSON body of an embedding-API response; `data` is `none`
when the `"data"` key is absent. -/
structure EmbedBody where
  data : Option (List EmbedItem)

/-- Outcome of one attempted `requests.post` + `raise_for_status` +
`.json()` round trip. -/
inductive EmbedOutcome where
  | ok (body : EmbedBody)
  | httpError (s : String)
  | transportError (s : String)
  | jsonError (s : String)

/-- The request payload sent to the embedding API. -/
structure EmbedRequest where
  model : String
  input : String

/-- Result dict of `generate_embedding`. -/
inductive EmbedResult where
  | success (embedding : List ℚ) (model : String)
  | error (message : String)

/-- The `"status"` entry of an embedding result. -/
def EmbedResult.status : EmbedResult → String
  | .success _ _ => "success"
  | .error _ => "error"

def DEFAULT_MODEL : String := "Pro/BAAI/bge-m3"

/-- `generate_embedding(text, model)`: refuse without a token (empty string
models the unset `EMBEDDING_API_TOKEN`), otherwise issue exactly one
request and map its outcome.  The response is read as
`result.get("data", [{}])[0].get("embedding", [])`: a missing `data` key or
a missing `embedding` key yields the empty embedding under `status`
success, while `data == []` raises `IndexError` into the catch-all branch.
Returns the result together with the list of requests issued. -/
def generate_embedding (token : String) (text : String) (modelArg : Option String)
    (net : EmbedOutcome) : EmbedResult × List EmbedRequest :=
  if token = "" then
    (.error "API token not configured for embedding service", [])
  else
    let modelName := modelArg.getD DEFAULT_MODEL
    let req : EmbedRequest := { model := modelName, input := text }
    match net with
    | .transportError s => (.error ("API request failed: " ++ s), [req])
    | .httpError s => (.error ("API request failed: " ++ s), [req])
    | .jsonError s => (.error ("Unexpected error: " ++ s), [req])
    | .ok body =>
      match body.data with
      | none => (.success [] modelName, [req])
      | some [] => (.error "Unexpected error: list index out of range", [req])
      | some (item :: _) => (.success (item.embedding.getD []) modelName, [req])

/-! ## Query service (`app.py:knn_search`, `app.py:text_similarity_search`) -/

def VECTOR_FIELD : String := "dense_vector"

def VECTOR_DIMENSION : Nat := 1024

/-- The k-NN query body built by `knn_search`. -/
structure KnnQuery where
  size : Nat
  vector : List ℚ
  k : Nat
  sourceExcludes : List String

/-- A reshaped hit `{id, score, text, metadata}`. -/
structure SimplifiedHit where
  id : Option String
  score : ℚ
  text : JVal
  metadata : PyDict

/-- Reshape one raw hit: `text` is `source.get("text", "")`, `metadata` is
every source field except `"text"` and the vector field. -/
def simplifyHit (h : SearchHit) : SimplifiedHit :=
  { id := h.id
    score := h.score
    text := (dictGet "text" h.source).getD (JVal.str "")
    metadata := h.source.filter (fun p => !(p.1 = "text" : Bool) && !(p.1 = VECTOR_FIELD : Bool)) }

/-- Result dict of `knn_search` (error passthrough keeps the gateway's
message). -/
inductive KnnResult where
  | success (results : List SimplifiedHit) (total : Nat)
  | error (message : String)

/-- The `"status"` entry of a `knn_search` result. -/
def KnnResult.status : KnnResult → String
  | .success _ _ => "success"
  | .error _ => "error"

/-- `knn_search(vector, k)`: validate the dimension, build the query with
the vector field excluded from `_source`, call the gateway, reshape hits.
Returns the result together with the list of queries handed to
`search_documents` (empty when the dimension check rejects the vector). -/
def knn_search (vector : List ℚ) (k : Nat) (indexName : String)
    (existsO : Except PyExc Bool) (searchO : Except PyExc EngineSearchResult) :
    KnnResult × List KnnQuery :=
  if vector.length ≠ VECTOR_DIMENSION then
    (.error ("Vector dimension mismatch. Expected " ++ toString VECTOR_DIMENSION ++
      ", got " ++ toString vector.length), [])
  else
    let query : KnnQuery :=
      { size := k, vector := vector, k := k, sourceExcludes := [VECTOR_FIELD] }
    match search_documents indexName existsO searchO with
    | .success er =>
      let simplified := er.hits.map simplifyHit
      (.success simplified simplified.length, [query])
    | .error m => (.error m, [query])

/-- Result dict of `text_similarity_search` (embedding and search errors
pass through with their message). -/
inductive TssResult where
  | success (queryText : String) (results : List SimplifiedHit) (total : Nat)
      (scoreThreshold : ℚ) (originalTotal : Nat)
  | error (message : String)

/-- `text_similarity_search(text, k, score)`: embed the query text, k-NN
search, then keep the results with `score > threshold`
(`result.get("score", 0) > score`, strict). -/
def text_similarity_search (text : String) (k : Nat) (score : ℚ)
    (token : String) (net : EmbedOutcome) (indexName : String)
    (existsO : Except PyExc Bool) (searchO : Except PyExc EngineSearchResult) :
    TssResult :=
  match (generate_embedding token text none net).1 with
  | .error m => .error m
  | .success emb _ =>
    match (knn_search emb k indexName existsO searchO).1 with
    | .error m => .error m
    | .success results total =>
      let filtered := results.filter (fun r => decide (score < r.score))
      .success text filtered filtered.length score total

/-! ## Bulk indexing (`tools/embedding.py:bulk_index_with_embeddings`) -/

/-- One entry of `failed_docs`: the offending document and a reason. -/
structure FailedDoc where
  doc : PyDict
  reason : String

/-- The per-document loop of `bulk_index_with_embeddings`: each input
document either joins `processed_docs` (a copy extended with the vector
field) or `failed_docs` (with a reason); `n` counts embedding-API calls so
`net` can give each sequential call its own outcome.  Returns
`(processed_docs, failed_docs, next call index)`. -/
def bulkEmbedLoop (token : String) (textField : String) (net : Nat → EmbedOutcome) :
    Nat → List PyDict → List PyDict × List FailedDoc × Nat
  | n, [] => ([], [], n)
  | n, doc :: rest =>
    match dictGet textField doc with
    | none =>
      let r := bulkEmbedLoop token textField net n rest
      (r.1, { doc := doc, reason := "Missing text field '" ++ textField ++ "'" } :: r.2.1, r.2.2)
    | some textVal =>
      match (generate_embedding token textVal.asText none (net n)).1 with
      | .error m =>
        let r := bulkEmbedLoop token textField net (n + 1) rest
        (r.1, { doc := doc, reason := m } :: r.2.1, r.2.2)
      | .success emb _ =>
        let r := bulkEmbedLoop token textField net (n + 1) rest
        (dictSet VECTOR_FIELD (JVal.arr (emb.map JVal.num)) doc :: r.1, r.2.1, r.2.2)

/-- One action header of the bulk request body. -/
structure BulkAction where
  indexName : String
  id : Option String

/-- The bulk request body, as (action header, document) pairs: an explicit
id when the document carries `"_id"` (popped from the document), else an
auto-generated one. -/
def buildBulkData (indexName : String) : List PyDict → List (BulkAction × PyDict)
  | [] => []
  | doc :: rest =>
    match dictGet "_id" doc with
    | some v =>
      ({ indexName := indexName, id := some v.asText },
        doc.filter (fun p => !(p.1 = "_id" : Bool))) :: buildBulkData indexName rest
    | none =>
      ({ indexName := indexName, id := none }, doc) :: buildBulkData indexName rest

/-- Result dict of `bulk_index_with_embeddings`. -/
inductive BulkResult where
  | success (response : JVal) (processedCount : Nat) (failedCount : Nat)
      (failedDocs : Option (List FailedDoc))
  | error (message : String) (failedDocs : Option (List FailedDoc))

/-- The `"status"` entry of a bulk result. -/
def BulkResult.status : BulkResult → String
  | .success _ _ _ _ => "success"
  | .error _ _ => "error"

/-- `bulk_index_with_embeddings(documents, text_field)`: run the embedding
loop; if nothing succeeded report `status=error` with the failures, else
send one bulk request (`bulkO` is the outcome of `client.bulk`) and report
`status=success` with counts — unless the bulk call raises, in which case
the outer `except` yields the bulk-indexing error.  Returns the result
together with the bulk body sent (empty when no bulk call was made). -/
def bulk_index_with_embeddings (token : String) (textField : String)
    (net : Nat → EmbedOutcome) (indexName : String) (documents : List PyDict)
    (bulkO : Except PyExc JVal) : BulkResult × List (BulkAction × PyDict) :=
  let r := bulkEmbedLoop token textField net 0 documents
  let processedDocs := r.1
  let failedDocs := r.2.1
  if processedDocs.isEmpty then
    (.error "No documents were processed successfully" (some failedDocs), [])
  else
    let bulkData := buildBulkData indexName processedDocs
    match bulkO with
    | .error e => (.error ("Bulk indexing error: " ++ e.msg) none, bulkData)
    | .ok resp =>
      (.success resp processedDocs.length failedDocs.length
        (if failedDocs.isEmpty then none else some failedDocs), bulkData)

/-! ## Ingestion pipeline (`doc_ingest.py`) -/

/-- `os.path.basename` for POSIX paths. -/
def basename (p : String) : String := (p.splitOn "/").getLastD ""

/-- The base metadata of `process_file`: the caller-supplied dict with
`"source"` set to the file path and `"filename"` to its base name. -/
def baseMetadataOf (filePath : String) (metadata : PyDict) : PyDict :=
  dictSet "filename" (JVal.str (basename filePath))
    (dictSet "source" (JVal.str filePath) metadata)

/-- The metadata dict attached to chunk `i` of `n`:
`{**base_metadata, "chunk_index": i, "chunk_count": n}`. -/
def chunkMetadata (filePath : String) (metadata : PyDict) (n i : Nat) : PyDict :=
  dictSet "chunk_count" (JVal.num (n : ℚ))
    (dictSet "chunk_index" (JVal.num (i : ℚ)) (baseMetadataOf filePath metadata))

/-- The `for i, chunk in enumerate(chunks)` loop body of `process_file`,
with `i` running from the given start index. -/
def buildDocsAux (filePath : String) (metadata : PyDict) (n : Nat) :
    Nat → List String → List PyDict
  | _, [] => []
  | i, c :: rest =>
    [("text", JVal.str c), ("metadata", JVal.obj (chunkMetadata filePath metadata n i))]
      :: buildDocsAux filePath metadata n (i + 1) rest

/-- The document list `process_file` hands to
`bulk_index_with_embeddings`: one document per chunk. -/
def buildDocuments (filePath : String) (metadata : PyDict) (chunks : List String) :
    List PyDict :=
  buildDocsAux filePath metadata chunks.length 0 chunks

/-- The index settings and k-NN mapping hard-coded in
`create_index_if_not_exists`. -/
structure KnnIndexMapping where
  numberOfShards : Nat
  numberOfReplicas : Nat
  refreshInterval : String
  knnEnabled : Bool
  efSearch : Nat
  dimension : Nat
  methodName : String
  spaceType : String
  engine : String
  efConstruction : Nat
  m : Nat

/-- The mapping literal of `doc_ingest.py` lines 96–125. -/
def docIngestMapping : KnnIndexMapping :=
  { numberOfShards := 1
    numberOfReplicas := 0
    refreshInterval := "60s"
    knnEnabled := true
    efSearch := 32
    dimension := 1024
    methodName := "hnsw"
    spaceType := "innerproduct"
    engine := "faiss"
    efConstruction := 32
    m := 16 }

/-- Store-side state visible to `create_index_if_not_exists`: the existing
indices with their mappings. -/
structure StoreState where
  indices : List (String × KnnIndexMapping)

/-- `client.indices.exists(index=name)`. -/
def indexExists (st : StoreState) (name : String) : Bool :=
  st.indices.any (fun p => decide (p.1 = name))

/-- `create_index_if_not_exists`: check existence; only when absent create
the index with the k-NN mapping.  Returns the new store state and whether a
create was performed. -/
def create_index_if_not_exists (indexName : String) (st : StoreState) :
    StoreState × Bool :=
  if indexExists st indexName then
    (st, false)
  else
    ({ indices := (indexName, docIngestMapping) :: st.indices }, true)

/-! ## `app.py:index_text_with_embedding` -/

/-- The `metadata` JSON-string argument, as seen through
`json.loads(metadata) if metadata != "{}" else {}`. -/
inductive MetaArg where
  | emptyLiteral
  | parsedOk (d : PyDict)
  | invalid

/-- `index_text_with_embedding(text, document_id, metadata)`: embed the
text (aborting with the embedding error), parse the metadata, build the
document `{**metadata, "text": text, "dense_vector": embedding}` with no
check on the embedding's length, and write it (with the given id) or index
it (auto id).  Returns the result together with the `(id?, document)`
pairs handed to the store. -/
def index_text_with_embedding (text : String) (documentId : Option String)
    (metadata : MetaArg) (token : String) (net : EmbedOutcome)
    (existsO : Except PyExc Bool) (createO : Except PyExc Unit)
    (indexO : Except PyExc JVal) : OpResult JVal × List (Option String × PyDict) :=
  match (generate_embedding token text none net).1 with
  | .error m => (.error m, [])
  | .success emb _ =>
    let metadataDict : Option PyDict :=
      match metadata with
      | .emptyLiteral => some []
      | .parsedOk d => some d
      | .invalid => none
    match metadataDict with
    | none => (.error "Invalid metadata JSON format", [])
    | some md =>
      let document :=
        dictSet VECTOR_FIELD (JVal.arr (emb.map JVal.num))
          (dictSet "text" (JVal.str text) md)
      match documentId with
      | some docId =>
        (write_document docId document existsO createO indexO, [(some docId, document)])
      | none =>
        (index_document document existsO createO indexO, [(none, document)])

/-- Uniform result shape of the gateway operations: the status is
"success" or it is "error" with a message present. -/
def uniformResult {α : Type} (r : OpResult α) : Prop :=
  r.status = "success" ∨ (r.status = "error" ∧ (r.message?).isSome = true)

/-! ## Concrete data for witnesses -/

/-- A raw hit with a text field and one metadata field. -/
def wHit : SearchHit :=
  { id := some "doc1", score := 1
    source := [("text", JVal.str "hello"), ("lang", JVal.str "en")] }

/-- An engine response with one hit. -/
def wEngine : EngineSearchResult := ⟨[wHit]⟩

/-- A query embedding of the configured dimension. -/
def wVec : List ℚ := List.replicate 1024 0

/-- An embedding-API outcome that returns `wVec`. -/
def wEmbedNet : EmbedOutcome := .ok { data := some [{ embedding := some wVec }] }

/-- Three chunk documents for the bulk-indexing scenarios. -/
def wDoc1 : PyDict := [("text", JVal.str "c1")]

def wDoc2 : PyDict := [("text", JVal.str "c2")]

def wDoc3 : PyDict := [("text", JVal.str "c3")]

/-- An embedding API that fails exactly on the second call. -/
def wNet : Nat → EmbedOutcome := fun n =>
  if n = 1 then .transportError "boom"
  else .ok { data := some [{ embedding := some [1] }] }

/-- An embedding API that always succeeds with a one-coordinate vector. -/
def cexNet : Nat → EmbedOutcome :=
  fun _ => .ok { data := some [{ embedding := some [1] }] }

/-! ## Helper lemmas -/

theorem dictGet_dictSet_same (k : String) (v : JVal) (d : PyDict) :
    dictGet k (dictSet k v d) = some v := by
  induction d with
  | nil => simp [dictGet, dictSet]
  | cons p rest ih =>
    obtain ⟨k', v'⟩ := p
    by_cases h : k' = k
    · simp [dictSet, h, dictGet]
    · simp [dictSet, h, dictGet, ih]

theorem dictGet_dictSet_ne (k k' : String) (v : JVal) (d : PyDict) (h : k' ≠ k) :
    dictGet k (dictSet k' v d) = dictGet k d := by
  induction d with
  | nil => simp [dictGet, dictSet, h]
  | cons p rest ih =>
    obtain ⟨k'', v''⟩ := p
    by_cases h2 : k'' = k'
    · subst h2
      simp [dictSet, dictGet, h]
    · simp [dictSet, h2, dictGet, ih]

theorem search_documents_success_iff (indexName : String) (existsO : Except PyExc Bool)
    (searchO : Except PyExc EngineSearchResult) (er : EngineSearchResult) :
    search_documents indexName existsO searchO = .success er ↔
      existsO = .ok true ∧ searchO = .ok er := by
  cases existsO with
  | error e => cases e <;> simp [search_documents, searchExcHandler]
  | ok b =>
    cases b with
    | false => simp [search_documents]
    | true =>
      cases searchO with
      | error e => cases e <;> simp [search_documents, searchExcHandler]
      | ok r => simp [search_documents]

theorem knn_search_success_total (v : List ℚ) (k : Nat) (indexName : String)
    (existsO : Except PyExc Bool) (searchO : Except PyExc EngineSearchResult)
    (res : List SimplifiedHit) (tot : Nat)
    (h : (knn_search v k indexName existsO searchO).1 = .success res tot) :
    tot = res.length ∧ ∃ er, searchO = .ok er ∧ res = er.hits.map simplifyHit := by
  unfold knn_search at h
  split at h
  · simp at h
  · cases hs : search_documents indexName existsO searchO with
    | success er =>
      rw [hs] at h
      injection h with h1 h2
      subst h1
      subst h2
      refine ⟨by simp, er, ?_, rfl⟩
      exact ((search_documents_success_iff indexName existsO searchO er).mp hs).2
    | error m =>
      rw [hs] at h
      simp at h

theorem bulkEmbedLoop_partition (token textField : String) (net : Nat → EmbedOutcome) :
    ∀ (docs : List PyDict) (n : Nat),
      (bulkEmbedLoop token textField net n docs).1.length +
        (bulkEmbedLoop token textField net n docs).2.1.length = docs.length := by
  intro docs
  induction docs with
  | nil => intro n; simp [bulkEmbedLoop]
  | cons doc rest ih =>
    intro n
    have h1 := ih n
    have h2 := ih (n + 1)
    cases hd : dictGet textField doc with
    | none =>
      simp only [bulkEmbedLoop, hd, List.length_cons]
      omega
    | some tv =>
      cases hE : (generate_embedding token tv.asText none (net n)).1 with
      | error m =>
        simp only [bulkEmbedLoop, hd, hE, List.length_cons]
        omega
      | success emb model =>
        simp only [bulkEmbedLoop, hd, hE, List.length_cons]
        omega

theorem buildDocsAux_length (filePath : String) (metadata : PyDict) (n : Nat) :
    ∀ (chunks : List String) (i : Nat),
      (buildDocsAux filePath metadata n i chunks).length = chunks.length := by
  intro chunks
  induction chunks with
  | nil => intro i; simp [buildDocsAux]
  | cons c rest ih => intro i; simp [buildDocsAux, ih (i + 1)]

theorem buildDocsAux_get? (filePath : String) (metadata : PyDict) (n : Nat) :
    ∀ (chunks : List String) (i j : Nat),
      (buildDocsAux filePath metadata n i chunks).get? j =
        (chunks.get? j).map (fun c =>
          [("text", JVal.str c),
            ("metadata", JVal.obj (chunkMetadata filePath metadata n (i + j)))]) := by
  intro chunks
  induction chunks with
  | nil => intro i j; simp [buildDocsAux]
  | cons c rest ih =>
    intro i j
    cases j with
    | zero => simp [buildDocsAux]
    | succ j' =>
      simp only [buildDocsAux, List.get?_cons_succ, ih (i + 1) j']
      have : i + 1 + j' = i + (j' + 1) := by omega
      rw [this]

/-- Every gateway result satisfies the uniform shape by case analysis on
its constructor. -/
theorem uniformResult_all {α : Type} (r : OpResult α) : uniformResult r := by
  cases r <;> simp [uniformResult, OpResult.status, OpResult.message?]

theorem write_document_success (documentId : String) (document : PyDict)
    (e2 : Except PyExc Bool) (c2 : Except PyExc Unit) (i2 : Except PyExc JVal)
    (r : JVal) (h : write_document documentId document e2 c2 i2 = .success r) :
    i2 = .ok r := by
  unfold write_document at h
  cases e2 with
  | error e => cases e <;> simp [writeExcHandler] at h
  | ok b =>
    cases b with
    | true =>
      cases i2 with
      | error e => cases e <;> simp [writeExcHandler] at h
      | ok resp => injection h with h; rw [h]
    | false =>
      dsimp only at h
      cases c2 with
      | error e => cases e <;> simp [writeExcHandler] at h
      | ok u =>
        cases u
        cases i2 with
        | error e => cases e <;> simp [writeExcHandler] at h
        | ok resp => injection h with h; rw [h]

theorem index_document_success (document : PyDict)
    (e3 : Except PyExc Bool) (c3 : Except PyExc Unit) (i3 : Except PyExc JVal)
    (r : JVal) (h : index_document document e3 c3 i3 = .success r) :
    i3 = .ok r := by
  unfold index_document at h
  cases e3 with
  | error e => cases e <;> simp [writeExcHandler] at h
  | ok b =>
    cases b with
    | true =>
      cases i3 with
      | error e => cases e <;> simp [writeExcHandler] at h
      | ok resp => injection h with h; rw [h]
    | false =>
      dsimp only at h
      cases c3 with
      | error e => cases e <;> simp [writeExcHandler] at h
      | ok u =>
        cases u
        cases i3 with
        | error e => cases e <;> simp [writeExcHandler] at h
        | ok resp => injection h with h; rw [h]

theorem delete_document_success (indexName documentId : String)
    (e4 : Except PyExc Bool) (d4 : Except PyExc JVal) (r : JVal)
    (h : delete_document indexName documentId e4 d4 = .success r) :
    e4 = .ok true ∧ d4 = .ok r := by
  unfold delete_document at h
  cases e4 with
  | error e => cases e <;> simp at h
  | ok b =>
    cases b with
    | false => simp at h
    | true =>
      cases d4 with
      | error e => cases e <;> simp at h
      | ok resp => injection h with h; exact ⟨rfl, by rw [h]⟩

/-! ## Claim theorems -/

/-- C1: a successful `text_similarity_search(text, k, score)` returns only
results whose score is strictly greater than the threshold, reports
`total` as the size of the filtered list, reports `original_total` at
least that size, and the returned list is a client-side post-filter of a
pre-filter candidate pool of size `original_total`. -/
theorem text_similarity_search_score_filter (text : String) (k : Nat) (score : ℚ)
    (token : String) (net : EmbedOutcome) (indexName : String)
    (existsO : Except PyExc Bool) (searchO : Except PyExc EngineSearchResult)
    (qt : String) (res : List SimplifiedHit) (tot : Nat) (st : ℚ) (ot : Nat)
    (h : text_similarity_search text k score token net indexName existsO searchO =
      .success qt res tot st ot) :
    (∀ r ∈ res, score < r.score) ∧ tot = res.length ∧ res.length ≤ ot ∧
      ∃ pre : List SimplifiedHit, pre.length = ot ∧
        res = pre.filter (fun r => decide (score < r.score)) := by
  unfold text_similarity_search at h
  cases hg : (generate_embedding token text none net).1 with
  | error m => rw [hg] at h; simp at h
  | success emb model =>
    rw [hg] at h
    dsimp only at h
    cases hk : (knn_search emb k indexName existsO searchO).1 with
    | error m => rw [hk] at h; simp at h
    | success results total =>
      rw [hk] at h
      dsimp only at h
      injection h with h1 h2 h3 h4 h5
      subst h2
      subst h3
      subst h5
      obtain ⟨htot, er, hser, hres⟩ :=
        knn_search_success_total emb k indexName existsO searchO results total hk
      refine ⟨?_, rfl, ?_, results, htot.symm, rfl⟩
      · intro r hr
        have hm := List.mem_filter.mp hr
        simpa using hm.2
      · calc (results.filter (fun r => decide (score < r.score))).length
            ≤ results.length := List.length_filter_le _ _
          _ = total := htot.symm

/-- Witness for C1: a concrete successful search at threshold 0 whose
single hit has score 1. -/
theorem text_similarity_search_score_filter_check :
    (∀ r ∈ [simplifyHit wHit], (0 : ℚ) < r.score) ∧
      (1 : Nat) = [simplifyHit wHit].length ∧ [simplifyHit wHit].length ≤ 1 ∧
      ∃ pre : List SimplifiedHit, pre.length = 1 ∧
        [simplifyHit wHit] = pre.filter (fun r => decide ((0 : ℚ) < r.score)) :=
  text_similarity_search_score_filter "q" 10 0 "tok" wEmbedNet "idx"
    (.ok true) (.ok wEngine) "q" [simplifyHit wHit] 1 0 1 (by rfl)

/-- C3: a query vector whose length differs from the configured dimension
1024 is rejected with a dimension-mismatch error, and no query is handed
to the store (the search call happens only at length 1024). -/
theorem knn_search_dimension_mismatch (v : List ℚ) (k : Nat) (indexName : String)
    (existsO : Except PyExc Bool) (searchO : Except PyExc EngineSearchResult)
    (h : v.length ≠ 1024) :
    knn_search v k indexName existsO searchO =
      (.error ("Vector dimension mismatch. Expected " ++ toString VECTOR_DIMENSION ++
        ", got " ++ toString v.length), []) := by
  unfold knn_search VECTOR_DIMENSION
  rw [if_pos h]

/-- Witness for C3 at the empty vector. -/
theorem knn_search_dimension_mismatch_check :
    knn_search [] 10 "idx" (.ok true) (.ok wEngine) =
      (.error ("Vector dimension mismatch. Expected " ++ toString VECTOR_DIMENSION ++
        ", got " ++ toString (List.length ([] : List ℚ))), []) :=
  knn_search_dimension_mismatch [] 10 "idx" (.ok true) (.ok wEngine) (by decide)

/-- C5: on a successful search the issued k-NN query excludes the vector
field from `_source`, the results are exactly the reshaped engine hits,
and each reshaped hit keeps precisely the source fields other than
`"text"` and the vector field as its metadata. -/
theorem knn_search_source_shape (v : List ℚ) (k : Nat) (indexName : String)
    (existsO : Except PyExc Bool) (searchO : Except PyExc EngineSearchResult)
    (er : EngineSearchResult) (res : List SimplifiedHit) (tot : Nat)
    (hs : searchO = .ok er)
    (h : (knn_search v k indexName existsO searchO).1 = .success res tot) :
    (∀ q ∈ (knn_search v k indexName existsO searchO).2,
      q.sourceExcludes = [VECTOR_FIELD]) ∧
    res = er.hits.map simplifyHit ∧
    ∀ r ∈ res, ∃ hh, hh ∈ er.hits ∧ r.id = hh.id ∧ r.score = hh.score ∧
      (∀ p ∈ hh.source, p.1 ≠ "text" → p.1 ≠ VECTOR_FIELD → p ∈ r.metadata) ∧
      (∀ p ∈ r.metadata, p ∈ hh.source ∧ p.1 ≠ "text" ∧ p.1 ≠ VECTOR_FIELD) := by
  obtain ⟨htot, er', hser, hres⟩ :=
    knn_search_success_total v k indexName existsO searchO res tot h
  rw [hs] at hser
  injection hser with hser
  subst hser
  refine ⟨?_, hres, ?_⟩
  · intro q hq
    unfold knn_search at hq
    split at hq
    · simp at hq
    · cases hsd : search_documents indexName existsO searchO with
      | success er2 =>
        rw [hsd] at hq
        simp at hq
        subst hq
        rfl
      | error m =>
        rw [hsd] at hq
        simp at hq
        subst hq
        rfl
  · intro r hr
    rw [hres] at hr
    obtain ⟨hh, hhmem, hrEq⟩ := List.mem_map.mp hr
    subst hrEq
    refine ⟨hh, hhmem, rfl, rfl, ?_, ?_⟩
    · intro p hp h1 h2
      simp only [simplifyHit]
      exact List.mem_filter.mpr ⟨hp, by simp [h1, h2]⟩
    · intro p hp
      simp only [simplifyHit] at hp
      have hm := List.mem_filter.mp hp
      refine ⟨hm.1, ?_, ?_⟩
      · have := hm.2
        simp only [Bool.and_eq_true, Bool.not_eq_true', decide_eq_false_iff_not] at this
        exact this.1
      · have := hm.2
        simp only [Bool.and_eq_true, Bool.not_eq_true', decide_eq_false_iff_not] at this
        exact this.2

/-- Witness for C5 at a one-hit engine response. -/
theorem knn_search_source_shape_check :
    (∀ q ∈ (knn_search wVec 10 "idx" (.ok true) (.ok wEngine)).2,
      q.sourceExcludes = [VECTOR_FIELD]) ∧
    [simplifyHit wHit] = wEngine.hits.map simplifyHit ∧
    ∀ r ∈ [simplifyHit wHit], ∃ hh, hh ∈ wEngine.hits ∧ r.id = hh.id ∧
      r.score = hh.score ∧
      (∀ p ∈ hh.source, p.1 ≠ "text" → p.1 ≠ VECTOR_FIELD → p ∈ r.metadata) ∧
      (∀ p ∈ r.metadata, p ∈ hh.source ∧ p.1 ≠ "text" ∧ p.1 ≠ VECTOR_FIELD) :=
  knn_search_source_shape wVec 10 "idx" (.ok true) (.ok wEngine) wEngine
    [simplifyHit wHit] 1 rfl (by rfl)

/-- C4: every public gateway operation, for every outcome of the
underlying store calls, returns a dict whose status is "success" or
"error" (with a message on error) and never propagates an exception, and a
success is produced only when the reached store calls returned normally. -/
theorem gateway_ops_uniform_status (indexName documentId : String) (document : PyDict)
    (e1 : Except PyExc Bool) (s1 : Except PyExc EngineSearchResult)
    (e2 : Except PyExc Bool) (c2 : Except PyExc Unit) (i2 : Except PyExc JVal)
    (e3 : Except PyExc Bool) (c3 : Except PyExc Unit) (i3 : Except PyExc JVal)
    (e4 : Except PyExc Bool) (d4 : Except PyExc JVal) :
    uniformResult (search_documents indexName e1 s1) ∧
    uniformResult (write_document documentId document e2 c2 i2) ∧
    uniformResult (index_document document e3 c3 i3) ∧
    uniformResult (delete_document indexName documentId e4 d4) ∧
    (∀ er, search_documents indexName e1 s1 = .success er →
      e1 = .ok true ∧ s1 = .ok er) ∧
    (∀ r, write_document documentId document e2 c2 i2 = .success r → i2 = .ok r) ∧
    (∀ r, index_document document e3 c3 i3 = .success r → i3 = .ok r) ∧
    (∀ r, delete_document indexName documentId e4 d4 = .success r →
      e4 = .ok true ∧ d4 = .ok r) := by
  refine ⟨uniformResult_all _, uniformResult_all _, uniformResult_all _,
    uniformResult_all _, ?_, ?_, ?_, ?_⟩
  · intro er h
    exact (search_documents_success_iff indexName e1 s1 er).mp h
  · intro r h
    exact write_document_success documentId document e2 c2 i2 r h
  · intro r h
    exact index_document_success document e3 c3 i3 r h
  · intro r h
    exact delete_document_success indexName documentId e4 d4 r h

/-- Witness for C4 with all store calls returning normally. -/
theorem gateway_ops_uniform_status_check :
    uniformResult (search_documents "idx" (.ok true) (.ok wEngine)) ∧
    uniformResult (write_document "d1" [] (.ok true) (.ok ()) (.ok JVal.null)) ∧
    uniformResult (index_document [] (.ok true) (.ok ()) (.ok JVal.null)) ∧
    uniformResult (delete_document "idx" "d1" (.ok true) (.ok JVal.null)) ∧
    ((Except.ok true : Except PyExc Bool) = .ok true ∧
      (Except.ok wEngine : Except PyExc EngineSearchResult) = .ok wEngine) ∧
    (Except.ok JVal.null : Except PyExc JVal) = .ok JVal.null ∧
    (Except.ok JVal.null : Except PyExc JVal) = .ok JVal.null ∧
    ((Except.ok true : Except PyExc Bool) = .ok true ∧
      (Except.ok JVal.null : Except PyExc JVal) = .ok JVal.null) := by
  have h := gateway_ops_uniform_status "idx" "d1" [] (.ok true) (.ok wEngine)
    (.ok true) (.ok ()) (.ok JVal.null) (.ok true) (.ok ()) (.ok JVal.null)
    (.ok true) (.ok JVal.null)
  exact ⟨h.1, h.2.1, h.2.2.1, h.2.2.2.1,
    h.2.2.2.2.1 wEngine rfl,
    h.2.2.2.2.2.1 JVal.null rfl,
    h.2.2.2.2.2.2.1 JVal.null rfl,
    h.2.2.2.2.2.2.2 JVal.null rfl⟩

/-- C7: deleting an id the store reports missing (it raises
`NotFoundError`) yields a status=error result with the not-found message
and no unhandled exception; deleting an existing id yields status=success
with the store's acknowledgment. -/
theorem delete_document_notfound (indexName documentId : String)
    (existsO : Except PyExc Bool) (deleteO : Except PyExc JVal) :
    (∀ m, existsO = .ok true → deleteO = .error (.notFoundError m) →
      delete_document indexName documentId existsO deleteO =
        .error ("Document with ID " ++ documentId ++ " not found")) ∧
    (∀ resp, existsO = .ok true → deleteO = .ok resp →
      delete_document indexName documentId existsO deleteO = .success resp) ∧
    ((delete_document indexName documentId existsO deleteO).status = "success" ∨
      (delete_document indexName documentId existsO deleteO).status = "error") := by
  refine ⟨?_, ?_, ?_⟩
  · intro m h1 h2
    subst h1
    subst h2
    rfl
  · intro resp h1 h2
    subst h1
    subst h2
    rfl
  · rcases uniformResult_all (delete_document indexName documentId existsO deleteO) with
      h | h
    · exact Or.inl h
    · exact Or.inr h.1

/-- Witness for C7: a missing id and an existing id. -/
theorem delete_document_notfound_check :
    delete_document "idx" "missing" (.ok true) (.error (.notFoundError "404")) =
      .error ("Document with ID " ++ "missing" ++ " not found") ∧
    delete_document "idx" "doc1" (.ok true) (.ok JVal.null) = .success JVal.null :=
  ⟨(delete_document_notfound "idx" "missing" (.ok true)
      (.error (.notFoundError "404"))).1 "404" rfl rfl,
    (delete_document_notfound "idx" "doc1" (.ok true) (.ok JVal.null)).2.1
      JVal.null rfl rfl⟩

/-- C8: with no token configured `generate_embedding` reports the missing
credential and issues no request; with a token it issues exactly one
request (never more), maps transport/HTTP failures to a request-failed
error and other exceptions to an unexpected-error result. -/
theorem generate_embedding_single_attempt (token text : String)
    (modelArg : Option String) (net : EmbedOutcome) :
    (token = "" → generate_embedding token text modelArg net =
      (.error "API token not configured for embedding service", [])) ∧
    (token ≠ "" → (generate_embedding token text modelArg net).2 =
      [{ model := modelArg.getD DEFAULT_MODEL, input := text }]) ∧
    (∀ s, token ≠ "" → net = .transportError s →
      (generate_embedding token text modelArg net).1 =
        .error ("API request failed: " ++ s)) ∧
    (∀ s, token ≠ "" → net = .httpError s →
      (generate_embedding token text modelArg net).1 =
        .error ("API request failed: " ++ s)) ∧
    (∀ s, token ≠ "" → net = .jsonError s →
      (generate_embedding token text modelArg net).1 =
        .error ("Unexpected error: " ++ s)) ∧
    (generate_embedding token text modelArg net).2.length ≤ 1 := by
  refine ⟨?_, ?_, ?_, ?_, ?_, ?_⟩
  · intro h
    simp [generate_embedding, h]
  · intro h
    cases net with
    | ok body =>
      cases hd : body.data with
      | none => simp [generate_embedding, h, hd]
      | some l => cases l <;> simp [generate_embedding, h, hd]
    | httpError s => simp [generate_embedding, h]
    | transportError s => simp [generate_embedding, h]
    | jsonError s => simp [generate_embedding, h]
  · intro s h hnet
    subst hnet
    simp [generate_embedding, h]
  · intro s h hnet
    subst hnet
    simp [generate_embedding, h]
  · intro s h hnet
    subst hnet
    simp [generate_embedding, h]
  · by_cases h : token = ""
    · simp [generate_embedding, h]
    · cases net with
      | ok body =>
        cases hd : body.data with
        | none => simp [generate_embedding, h, hd]
        | some l => cases l <;> simp [generate_embedding, h, hd]
      | httpError s => simp [generate_embedding, h]
      | transportError s => simp [generate_embedding, h]
      | jsonError s => simp [generate_embedding, h]

/-- Witness for C8: no token, then a token with a transport failure and
with a JSON failure. -/
theorem generate_embedding_single_attempt_check :
    generate_embedding "" "t" none (.ok { data := none }) =
      (.error "API token not configured for embedding service", []) ∧
    (generate_embedding "tok" "t" none (.transportError "refused")).2 =
      [{ model := DEFAULT_MODEL, input := "t" }] ∧
    (generate_embedding "tok" "t" none (.transportError "refused")).1 =
      .error ("API request failed: " ++ "refused") ∧
    (generate_embedding "tok" "t" none (.jsonError "bad json")).1 =
      .error ("Unexpected error: " ++ "bad json") := by
  refine ⟨?_, ?_, ?_, ?_⟩
  · exact (generate_embedding_single_attempt "" "t" none (.ok { data := none })).1 rfl
  · exact (generate_embedding_single_attempt "tok" "t" none
      (.transportError "refused")).2.1 (by decide)
  · exact (generate_embedding_single_attempt "tok" "t" none
      (.transportError "refused")).2.2.1 "refused" (by decide) rfl
  · exact (generate_embedding_single_attempt "tok" "t" none
      (.jsonError "bad json")).2.2.2.2.1 "bad json" (by decide) rfl

/-- C9: `create_index_if_not_exists` is idempotent — after one call the
index exists, so a second call changes nothing and performs no create —
and a create installs the hard-coded k-NN mapping: dimension 1024, HNSW,
inner-product space, ef_construction 32, m 16, ef_search 32. -/
theorem create_index_if_not_exists_idempotent (indexName : String) (st : StoreState) :
    create_index_if_not_exists indexName
        (create_index_if_not_exists indexName st).1 =
      ((create_index_if_not_exists indexName st).1, false) ∧
    (create_index_if_not_exists indexName st).1.indices =
      (if indexExists st indexName then st.indices
        else (indexName, docIngestMapping) :: st.indices) ∧
    docIngestMapping.dimension = 1024 ∧ docIngestMapping.methodName = "hnsw" ∧
    docIngestMapping.spaceType = "innerproduct" ∧
    docIngestMapping.efConstruction = 32 ∧ docIngestMapping.m = 16 ∧
    docIngestMapping.efSearch = 32 := by
  refine ⟨?_, ?_, rfl, rfl, rfl, rfl, rfl, rfl⟩
  · cases h : indexExists st indexName with
    | true => simp [create_index_if_not_exists, h]
    | false =>
      have h2 : indexExists ⟨(indexName, docIngestMapping) :: st.indices⟩ indexName
          = true := by
        simp [indexExists]
      simp [create_index_if_not_exists, h, h2]
  · cases h : indexExists st indexName <;> simp [create_index_if_not_exists, h]

/-- C6: splitting a file into n chunks builds exactly n documents; the
document at position i carries the i-th chunk as text and metadata with
chunk_index i (0-based), chunk_count n, source the file path, filename its
base name, and every other caller-supplied metadata key unchanged. -/
theorem process_file_chunk_documents (filePath : String) (metadata : PyDict)
    (chunks : List String) (i : Nat) (c : String)
    (h : chunks.get? i = some c) :
    (buildDocuments filePath metadata chunks).length = chunks.length ∧
    (buildDocuments filePath metadata chunks).get? i =
      some [("text", JVal.str c),
        ("metadata", JVal.obj (chunkMetadata filePath metadata chunks.length i))] ∧
    dictGet "chunk_index" (chunkMetadata filePath metadata chunks.length i) =
      some (JVal.num (i : ℚ)) ∧
    dictGet "chunk_count" (chunkMetadata filePath metadata chunks.length i) =
      some (JVal.num (chunks.length : ℚ)) ∧
    dictGet "source" (chunkMetadata filePath metadata chunks.length i) =
      some (JVal.str filePath) ∧
    dictGet "filename" (chunkMetadata filePath metadata chunks.length i) =
      some (JVal.str (basename filePath)) ∧
    ∀ k, k ≠ "chunk_index" → k ≠ "chunk_count" → k ≠ "source" → k ≠ "filename" →
      dictGet k (chunkMetadata filePath metadata chunks.length i) =
        dictGet k metadata := by
  refine ⟨buildDocsAux_length filePath metadata chunks.length chunks 0, ?_,
    ?_, ?_, ?_, ?_, ?_⟩
  · rw [buildDocuments, buildDocsAux_get? filePath metadata chunks.length chunks 0 i, h]
    simp
  · rw [chunkMetadata, dictGet_dictSet_ne _ _ _ _ (by decide), dictGet_dictSet_same]
  · rw [chunkMetadata, dictGet_dictSet_same]
  · rw [chunkMetadata, dictGet_dictSet_ne _ _ _ _ (by decide),
      dictGet_dictSet_ne _ _ _ _ (by decide), baseMetadataOf,
      dictGet_dictSet_ne _ _ _ _ (by decide), dictGet_dictSet_same]
  · rw [chunkMetadata, dictGet_dictSet_ne _ _ _ _ (by decide),
      dictGet_dictSet_ne _ _ _ _ (by decide), baseMetadataOf, dictGet_dictSet_same]
  · intro k h1 h2 h3 h4
    rw [chunkMetadata, dictGet_dictSet_ne _ _ _ _ (Ne.symm h2),
      dictGet_dictSet_ne _ _ _ _ (Ne.symm h1), baseMetadataOf,
      dictGet_dictSet_ne _ _ _ _ (Ne.symm h4), dictGet_dictSet_ne _ _ _ _ (Ne.symm h3)]

/-- Witness for C6: the second chunk of a two-chunk file with one caller
metadata key. -/
theorem process_file_chunk_documents_check :
    (buildDocuments "dir/a.txt" [("lang", JVal.str "en")] ["c0", "c1"]).length = 2 ∧
    (buildDocuments "dir/a.txt" [("lang", JVal.str "en")] ["c0", "c1"]).get? 1 =
      some [("text", JVal.str "c1"),
        ("metadata",
          JVal.obj (chunkMetadata "dir/a.txt" [("lang", JVal.str "en")] 2 1))] ∧
    dictGet "chunk_index" (chunkMetadata "dir/a.txt" [("lang", JVal.str "en")] 2 1) =
      some (JVal.num ((1 : Nat) : ℚ)) ∧
    dictGet "chunk_count" (chunkMetadata "dir/a.txt" [("lang", JVal.str "en")] 2 1) =
      some (JVal.num ((2 : Nat) : ℚ)) ∧
    dictGet "source" (chunkMetadata "dir/a.txt" [("lang", JVal.str "en")] 2 1) =
      some (JVal.str "dir/a.txt") ∧
    dictGet "filename" (chunkMetadata "dir/a.txt" [("lang", JVal.str "en")] 2 1) =
      some (JVal.str (basename "dir/a.txt")) ∧
    dictGet "lang" (chunkMetadata "dir/a.txt" [("lang", JVal.str "en")] 2 1) =
      some (JVal.str "en") := by
  have h := process_file_chunk_documents "dir/a.txt" [("lang", JVal.str "en")]
    ["c0", "c1"] 1 "c1" rfl
  exact ⟨h.1, h.2.1, h.2.2.1, h.2.2.2.1, h.2.2.2.2.1, h.2.2.2.2.2.1,
    (h.2.2.2.2.2.2 "lang" (by decide) (by decide) (by decide) (by decide)).trans
      (by rfl)⟩

/-- C2 (amended): the bulk indexer reports status=error exactly when no
document was embedded successfully or the bulk write itself raised; when
at least one document embeds and the bulk write returns, it reports
status=success with processed_count the number of successes, failed_count
the number of failures, and failed_docs the entries (each with a reason)
of the failed documents; every input document lands in exactly one of the
two buckets. -/
theorem bulk_index_partial_failure (token textField : String)
    (net : Nat → EmbedOutcome) (indexName : String) (documents : List PyDict)
    (bulkO : Except PyExc JVal) :
    ((bulkEmbedLoop token textField net 0 documents).1 = [] →
      (bulk_index_with_embeddings token textField net indexName documents bulkO).1 =
        .error "No documents were processed successfully"
          (some (bulkEmbedLoop token textField net 0 documents).2.1)) ∧
    (∀ resp, (bulkEmbedLoop token textField net 0 documents).1 ≠ [] →
      bulkO = .ok resp →
      (bulk_index_with_embeddings token textField net indexName documents bulkO).1 =
        .success resp (bulkEmbedLoop token textField net 0 documents).1.length
          (bulkEmbedLoop token textField net 0 documents).2.1.length
          (if (bulkEmbedLoop token textField net 0 documents).2.1.isEmpty then none
            else some (bulkEmbedLoop token textField net 0 documents).2.1)) ∧
    (∀ e, (bulkEmbedLoop token textField net 0 documents).1 ≠ [] →
      bulkO = .error e →
      (bulk_index_with_embeddings token textField net indexName documents bulkO).1 =
        .error ("Bulk indexing error: " ++ e.msg) none) ∧
    (bulkEmbedLoop token textField net 0 documents).1.length +
      (bulkEmbedLoop token textField net 0 documents).2.1.length =
        documents.length := by
  refine ⟨?_, ?_, ?_, bulkEmbedLoop_partition token textField net documents 0⟩
  · intro h
    simp [bulk_index_with_embeddings, h]
  · intro resp h hb
    subst hb
    simp [bulk_index_with_embeddings, h]
  · intro e h hb
    subst hb
    simp [bulk_index_with_embeddings, h]

/-- Witness for C2 (amended): three chunk documents where only the second
embedding call fails — processed 2, failed 1, still status=success. -/
theorem bulk_index_partial_failure_check :
    (bulk_index_with_embeddings "tok" "text" wNet "idx" [wDoc1, wDoc2, wDoc3]
      (.ok JVal.null)).1 =
      .success JVal.null 2 1
        (some [{ doc := wDoc2, reason := "API request failed: boom" }]) := by
  have hne : (bulkEmbedLoop "tok" "text" wNet 0 [wDoc1, wDoc2, wDoc3]).1 ≠ [] := by
    intro hcontra
    have hlen : (bulkEmbedLoop "tok" "text" wNet 0 [wDoc1, wDoc2, wDoc3]).1.length = 2 :=
      rfl
    rw [hcontra] at hlen
    simp at hlen
  exact ((bulk_index_partial_failure "tok" "text" wNet "idx" [wDoc1, wDoc2, wDoc3]
    (.ok JVal.null)).2.1 JVal.null hne rfl).trans (by rfl)

/-- C2 counterexample: one chunk document embeds successfully, yet the
operation reports status=error because the bulk write raised — so
status=error does not imply that zero documents were embedded
successfully. -/
theorem bulk_index_error_despite_embeds :
    (bulk_index_with_embeddings "tok" "text" cexNet "idx" [wDoc1]
      (.error (.connectionError "conn down"))).1.status = "error" ∧
    (bulkEmbedLoop "tok" "text" cexNet 0 [wDoc1]).1.length = 1 := by
  constructor
  · rfl
  · rfl

/-- C10: an HTTP-success body lacking the data list or the embedding key
yields status=success with an empty embedding; the empty vector is only
rejected by the search path's 1024-length check (with no query issued),
while the ingestion write path hands the document carrying the empty
vector straight to the store. -/
theorem generate_embedding_empty_success (text token docId : String) (k : Nat)
    (indexName : String) (existsO : Except PyExc Bool)
    (searchO : Except PyExc EngineSearchResult) (createO : Except PyExc Unit)
    (writeO : Except PyExc JVal) (htok : token ≠ "") :
    (generate_embedding token text none (.ok { data := none })).1 =
      .success [] DEFAULT_MODEL ∧
    (∀ rest, (generate_embedding token text none
        (.ok { data := some ({ embedding := none } :: rest) })).1 =
      .success [] DEFAULT_MODEL) ∧
    knn_search [] k indexName existsO searchO =
      (.error ("Vector dimension mismatch. Expected " ++ toString VECTOR_DIMENSION ++
        ", got " ++ toString (0 : Nat)), []) ∧
    index_text_with_embedding text (some docId) .emptyLiteral token
        (.ok { data := none }) existsO createO writeO =
      (write_document docId [("text", JVal.str text), (VECTOR_FIELD, JVal.arr [])]
          existsO createO writeO,
        [(some docId, [("text", JVal.str text), (VECTOR_FIELD, JVal.arr [])])]) := by
  refine ⟨?_, ?_, rfl, ?_⟩
  · simp [generate_embedding, htok]
  · intro rest
    simp [generate_embedding, htok]
  · have hg : (generate_embedding token text none (.ok { data := none })).1 =
        .success [] DEFAULT_MODEL := by simp [generate_embedding, htok]
    unfold index_text_with_embedding
    rw [hg]
    rfl

/-- Witness for C10 at concrete inputs. -/
theorem generate_embedding_empty_success_check :
    (generate_embedding "tok" "t" none (.ok { data := none })).1 =
      .success [] DEFAULT_MODEL ∧
    (generate_embedding "tok" "t" none
        (.ok { data := some [{ embedding := none }] })).1 =
      .success [] DEFAULT_MODEL ∧
    knn_search [] 10 "idx" (.ok true) (.ok wEngine) =
      (.error ("Vector dimension mismatch. Expected " ++ toString VECTOR_DIMENSION ++
        ", got " ++ toString (0 : Nat)), []) ∧
    index_text_with_embedding "t" (some "d1") .emptyLiteral "tok"
        (.ok { data := none }) (.ok true) (.ok ()) (.ok JVal.null) =
      (write_document "d1" [("text", JVal.str "t"), (VECTOR_FIELD, JVal.arr [])]
          (.ok true) (.ok ()) (.ok JVal.null),
        [(some "d1", [("text", JVal.str "t"), (VECTOR_FIELD, JVal.arr [])])]) := by
  have h := generate_embedding_empty_success "t" "tok" "d1" 10 "idx" (.ok true)
    (.ok wEngine) (.ok ()) (.ok JVal.null) (by decide)
  exact ⟨h.1, h.2.1 [], h.2.2.1, h.2.2.2⟩

end AosMcp
